import Mathlib

/-
Verification of the freight delay notification system.

The development shallowly embeds the orchestration-relevant TypeScript
sources:
  - src/types/index.ts            (data model)
  - src/services/trafficService.ts
  - src/services/notificationService.ts
  - src/activities/index.ts       (pure utility activities)
  - src/workflows/freightDelayWorkflow.ts (the Temporal workflow body)

Numbers are modelled as Int (TypeScript numbers used as integer minute
counts throughout).  Nondeterministic inputs of the source (Math.random
draws, Date.now, environment variables) are made explicit parameters, so
every definition is a computable function of its inputs.  A fallible
activity result is an Except String value: Except.error models a thrown
exception (a terminal step failure after engine retries are exhausted).
-/

namespace Freight

/-- TrafficCondition: the four severity levels of src/types/index.ts
(`'light' | 'moderate' | 'heavy' | 'severe'`). -/
inductive TrafficCondition where
  | light
  | moderate
  | heavy
  | severe
deriving DecidableEq, Repr

/-- Lowercase name of a traffic condition, as the TS string literal. -/
def TrafficCondition.name : TrafficCondition → String
  | .light => "light"
  | .moderate => "moderate"
  | .heavy => "heavy"
  | .severe => "severe"

/-- DeliveryRoute from src/types/index.ts. -/
structure DeliveryRoute where
  origin : String
  destination : String
  waypoints : List String := []
deriving DecidableEq, Repr

/-- TrafficData from src/types/index.ts. -/
structure TrafficData where
  estimatedDelayMinutes : Int
  normalDurationMinutes : Int
  currentDurationMinutes : Int
  trafficCondition : TrafficCondition
  route : DeliveryRoute
deriving DecidableEq, Repr

/-- DelayNotificationInput from src/types/index.ts. -/
structure DelayNotificationInput where
  route : DeliveryRoute
  customerEmail : String
  delayThresholdMinutes : Int
deriving DecidableEq, Repr

/-- AIMessageRequest from src/types/index.ts (trafficCondition is a string
there; the workflow always passes TrafficData.trafficCondition). -/
structure AIMessageRequest where
  delayMinutes : Int
  route : DeliveryRoute
  trafficCondition : String
deriving DecidableEq, Repr

/-- AIMessageResponse from src/types/index.ts. -/
structure AIMessageResponse where
  message : String
  success : Bool
  error : Option String := none
deriving DecidableEq, Repr

/-- NotificationRequest from src/types/index.ts. -/
structure NotificationRequest where
  customerEmail : String
  subject : String
  message : String
  delayMinutes : Int
deriving DecidableEq, Repr

/-- NotificationResponse from src/types/index.ts. -/
structure NotificationResponse where
  success : Bool
  messageId : Option String := none
  error : Option String := none
deriving DecidableEq, Repr

/-- WorkflowResult from src/types/index.ts (the TerminalResult shape). -/
structure WorkflowResult where
  delayDetected : Bool
  delayMinutes : Int
  notificationSent : Bool
  message : Option String := none
  error : Option String := none
deriving DecidableEq, Repr

/-- Condition classification, extracted verbatim from the if/else-if chain
of TrafficService.getMockTrafficData (src/services/trafficService.ts
lines 47-56). -/
def trafficConditionOf (baseDelayMinutes : Int) : TrafficCondition :=
  if baseDelayMinutes < 15 then .light
  else if baseDelayMinutes < 30 then .moderate
  else if baseDelayMinutes < 45 then .heavy
  else .severe

/-- TrafficService.getMockTrafficData.  The source draws
baseDelayMinutes := Math.floor(Math.random() * 60), a uniform value in
0..59; the draw is made explicit by the rand parameter, with
rand % 60 ranging over exactly the values Math.floor can produce. -/
def getMockTrafficData (route : DeliveryRoute) (rand : Nat) : TrafficData :=
  let baseDelayMinutes : Int := ((rand % 60 : Nat) : Int)
  let normalDurationMinutes : Int := 120
  { estimatedDelayMinutes := baseDelayMinutes
    normalDurationMinutes := normalDurationMinutes
    currentDurationMinutes := normalDurationMinutes + baseDelayMinutes
    trafficCondition := trafficConditionOf baseDelayMinutes
    route := route }

/-- Model of JavaScript String.prototype.trim over the character list:
drop leading and trailing whitespace. -/
def trimChars (cs : List Char) : List Char :=
  ((cs.dropWhile Char.isWhitespace).reverse.dropWhile Char.isWhitespace).reverse

/-- Trimmed copy of a string (JavaScript trim semantics). -/
def strTrim (s : String) : String := String.mk (trimChars s.data)

/-- TrafficService.validateRoute (src/services/trafficService.ts lines
81-88): truthiness of both strings plus nonempty after trim. -/
def validateRoute (route : DeliveryRoute) : Bool :=
  (route.origin != "") && (route.destination != "") &&
    decide (0 < (strTrim route.origin).length) &&
    decide (0 < (strTrim route.destination).length)

/-- TrafficService.getTrafficData: the try branch calls
getRealTrafficData, which (the HTTP call being commented out in the
source) just returns getMockTrafficData, so the catch fallback is dead
and the method always yields mock data. -/
def getTrafficData (route : DeliveryRoute) (rand : Nat) : TrafficData :=
  getMockTrafficData route rand

/-- Activity fetchTrafficData (src/activities/index.ts lines 32-45):
throws on an invalid route, otherwise returns the service data. -/
def fetchTrafficData (route : DeliveryRoute) (rand : Nat) : Except String TrafficData :=
  if validateRoute route then Except.ok (getTrafficData route rand)
  else Except.error "Invalid route: Origin and destination are required"

/-- Activity shouldSendNotification (src/activities/index.ts lines
138-142): strict greater-than comparison of delay against threshold. -/
def shouldSendNotification (delayMinutes thresholdMinutes : Int) : Bool :=
  decide (delayMinutes > thresholdMinutes)

/-- NotificationService.createDelaySubject. -/
def createDelaySubject (delayMinutes : Int) : String :=
  "Freight Delivery Delay Notice - " ++ toString delayMinutes ++ " Minutes"

/-- Activity createNotificationRequest (src/activities/index.ts lines
151-164). -/
def createNotificationRequest (customerEmail : String) (aiMessage : String)
    (delayMinutes : Int) : NotificationRequest :=
  { customerEmail := customerEmail
    subject := createDelaySubject delayMinutes
    message := aiMessage
    delayMinutes := delayMinutes }

/-- Activity createAIMessageRequest (src/activities/index.ts lines
184-198). -/
def createAIMessageRequest (trafficData : TrafficData) : AIMessageRequest :=
  { delayMinutes := trafficData.estimatedDelayMinutes
    route := trafficData.route
    trafficCondition := trafficData.trafficCondition.name }

namespace NotificationService

/-- NotificationService.createSMSMessage (notificationService.ts lines
81-83). -/
def createSMSMessage (request : NotificationRequest) : String :=
  "Freight Delay Alert: Your delivery is delayed by " ++ toString request.delayMinutes ++
    " minutes due to traffic conditions. We apologize for the inconvenience. - Freight Team"

/-- NotificationService.simulateEmailSending: always succeeds with a
message id built from Date.now() and a random base-36 tag, both made
explicit parameters (now, randTag). -/
def simulateEmailSending (request : NotificationRequest) (now : Nat)
    (randTag : String) : NotificationResponse :=
  { success := true
    messageId := some ("msg_" ++ toString now ++ "_" ++ randTag) }

/-- NotificationService.sendDelayNotification (notificationService.ts
lines 27-41): simulateEmailSending never throws, so the catch branch is
dead and the mock response is returned as-is. -/
def sendDelayNotification (request : NotificationRequest) (now : Nat)
    (randTag : String) : NotificationResponse :=
  simulateEmailSending request now randTag

/-- NotificationService.simulateSMSSending: always succeeds with an
sms message id; the smsMessage argument is ignored, as in the source. -/
def simulateSMSSending (request : NotificationRequest) (smsMessage : String)
    (now : Nat) (randTag : String) : NotificationResponse :=
  { success := true
    messageId := some ("sms_" ++ toString now ++ "_" ++ randTag) }

/-- NotificationService.sendSMSNotification (notificationService.ts lines
61-74): composes the SMS text and simulates the send; never throws. -/
def sendSMSNotification (request : NotificationRequest) (now : Nat)
    (randTag : String) : NotificationResponse :=
  simulateSMSSending request (createSMSMessage request) now randTag

end NotificationService

/-- RetryPolicy: the per-step retry configuration surface of §4.2,
instantiated by the proxyActivities options of
src/workflows/freightDelayWorkflow.ts lines 35-43.  Intervals are in
milliseconds. -/
structure RetryPolicy where
  initialInterval : Nat
  maximumInterval : Nat
  backoffCoefficient : Nat
  maximumAttempts : Nat
deriving DecidableEq, Repr

/-- Modelled from the spec: the retry-delay computation lives in the
Temporal runtime, which is not under src/.  Spec §4.2: given the
1-indexed number n of the attempt that failed, the delay before the next
attempt is min(initialInterval * backoffCoefficient^(n-1),
maximumInterval). -/
def computeRetryDelay (p : RetryPolicy) (n : Nat) : Nat :=
  min (p.initialInterval * p.backoffCoefficient ^ (n - 1)) p.maximumInterval

/-- Modelled from the spec: §4.2, a failure is retryable unless the step
classifies it as terminal or n == maximumAttempts; so attempt n failing
exhausts the retries exactly when n has reached maximumAttempts. -/
def retriesExhausted (p : RetryPolicy) (n : Nat) : Bool :=
  decide (p.maximumAttempts ≤ n)

/-- The retry policy configured by proxyActivities in
src/workflows/freightDelayWorkflow.ts: initialInterval '1 second',
maximumInterval '10 seconds', backoffCoefficient 2, maximumAttempts 3. -/
def configuredRetryPolicy : RetryPolicy :=
  { initialInterval := 1000
    maximumInterval := 10000
    backoffCoefficient := 2
    maximumAttempts := 3 }

/-- StepCall: one activity invocation made by the workflow body, recorded
with the argument it was invoked with.  Log invocations are recorded by
their step-name string (the data payload of logWorkflowStep never
influences control flow and is elided). -/
inductive StepCall where
  | log (stepName : String)
  | fetch (route : DeliveryRoute)
  | shouldNotify (delayMinutes thresholdMinutes : Int)
  | createAIReq (trafficData : TrafficData)
  | genAI (request : AIMessageRequest)
  | createNotifReq (customerEmail : String) (aiMessage : String) (delayMinutes : Int)
  | sendPrimary (request : NotificationRequest)
  | sendSMS (request : NotificationRequest)
deriving DecidableEq, Repr

/-- Trace: the ordered sequence of activity invocations of one workflow
execution (the execution history). -/
abbrev Trace := List StepCall

/-- StepResults: the recorded outcome of each activity of one execution,
as replayed from the Temporal history.  Except.error models a terminal
(retry-exhausted or non-retryable) activity failure raised into the
workflow; every activity of the body is invoked at most once, except
logWorkflowStep, whose outcome is recorded per step-name string. -/
structure StepResults where
  logResult : String → Except String Unit
  fetchResult : Except String TrafficData
  shouldNotifyResult : Except String Bool
  createAIReqResult : Except String AIMessageRequest
  genAIResult : Except String AIMessageResponse
  createNotifReqResult : Except String NotificationRequest
  sendPrimaryResult : Except String NotificationResponse
  sendSMSResult : Except String NotificationResponse

/-- Env: ambient nondeterminism a workflow body could read inline
(wall clock, random draws, environment variables).  The source body of
freightDelayNotificationWorkflow performs no such read, so the embedding
receives this record and never consults it; replay determinism is the
statement that the function is constant in this argument. -/
structure Env where
  now : Nat
  random : Nat
  envVar : String → Option String

/-- stepBind: invoke one activity whose recorded outcome is r.  The
invocation c is always recorded in the trace; a thrown outcome aborts the
rest of the body (the continuation k). -/
def stepBind {α β : Type} (c : StepCall) (r : Except String α)
    (k : α → Trace × Except String β) : Trace × Except String β :=
  match r with
  | Except.error e => ([c], Except.error e)
  | Except.ok a => (c :: (k a).1, (k a).2)

@[simp] lemma stepBind_error {α β : Type} (c : StepCall) (e : String)
    (k : α → Trace × Except String β) :
    stepBind c (Except.error e) k = ([c], Except.error e) := rfl

@[simp] lemma stepBind_ok {α β : Type} (c : StepCall) (a : α)
    (k : α → Trace × Except String β) :
    stepBind c (Except.ok a) k = (c :: (k a).1, (k a).2) := rfl

@[simp] lemma mem_stepBind_iff {α β : Type} (x c : StepCall) (r : Except String α)
    (k : α → Trace × Except String β) :
    x ∈ (stepBind c r k).1 ↔ x = c ∨ ∃ a, r = Except.ok a ∧ x ∈ (k a).1 := by
  cases r <;> simp [stepBind]

/-- interpolateOpt: TypeScript template interpolation of an optional
string value; an absent value prints as the string undefined. -/
def interpolateOpt : Option String → String
  | some s => s
  | none => "undefined"

/-- workflowBody: the contents of the try block of
freightDelayNotificationWorkflow (src/workflows/freightDelayWorkflow.ts
lines 59-155), with each activity call consuming its recorded outcome
from sr and appending itself to the trace. -/
def workflowBody (input : DelayNotificationInput) (sr : StepResults) :
    Trace × Except String WorkflowResult :=
  stepBind (.log "Step 1: Fetching Traffic Data")
      (sr.logResult "Step 1: Fetching Traffic Data") fun _ =>
  stepBind (.fetch input.route) sr.fetchResult fun trafficData =>
  stepBind (.log "Step 1 Complete: Traffic Data Retrieved")
      (sr.logResult "Step 1 Complete: Traffic Data Retrieved") fun _ =>
  stepBind (.log "Step 2: Checking Delay Threshold")
      (sr.logResult "Step 2: Checking Delay Threshold") fun _ =>
  stepBind (.shouldNotify trafficData.estimatedDelayMinutes input.delayThresholdMinutes)
      sr.shouldNotifyResult fun shouldNotify =>
  if !shouldNotify then
    stepBind (.log "Step 2 Complete: No Notification Required")
        (sr.logResult "Step 2 Complete: No Notification Required") fun _ =>
      ([], Except.ok
        { delayDetected := false
          delayMinutes := trafficData.estimatedDelayMinutes
          notificationSent := false
          message := some ("No notification required. Delay of " ++
            toString trafficData.estimatedDelayMinutes ++
            " minutes is below threshold of " ++
            toString input.delayThresholdMinutes ++ " minutes.") })
  else
  stepBind (.log "Step 3: Generating AI Message")
      (sr.logResult "Step 3: Generating AI Message") fun _ =>
  stepBind (.createAIReq trafficData) sr.createAIReqResult fun aiRequest =>
  stepBind (.genAI aiRequest) sr.genAIResult fun aiResponse =>
  stepBind (.log (if aiResponse.success then "Step 3 Complete: AI Message Generated"
                  else "Step 3 Warning: AI Message Generation Failed"))
      (sr.logResult (if aiResponse.success then "Step 3 Complete: AI Message Generated"
                     else "Step 3 Warning: AI Message Generation Failed")) fun _ =>
  stepBind (.log "Step 4: Sending Notification")
      (sr.logResult "Step 4: Sending Notification") fun _ =>
  stepBind (.createNotifReq input.customerEmail aiResponse.message
        trafficData.estimatedDelayMinutes)
      sr.createNotifReqResult fun notificationRequest =>
  stepBind (.sendPrimary notificationRequest) sr.sendPrimaryResult fun notificationResponse =>
  if notificationResponse.success then
    stepBind (.log "Step 4 Complete: Notification Sent Successfully")
        (sr.logResult "Step 4 Complete: Notification Sent Successfully") fun _ =>
      ([], Except.ok
        { delayDetected := true
          delayMinutes := trafficData.estimatedDelayMinutes
          notificationSent := true
          message := some ("Delay notification sent successfully. Customer " ++
            input.customerEmail ++ " has been notified of " ++
            toString trafficData.estimatedDelayMinutes ++ " minute delay.") })
  else
    stepBind (.log "Step 4 Warning: Notification Failed")
        (sr.logResult "Step 4 Warning: Notification Failed") fun _ =>
    stepBind (.sendSMS notificationRequest) sr.sendSMSResult fun smsResponse =>
    if smsResponse.success then
      stepBind (.log "Step 4 Complete: SMS Notification Sent")
          (sr.logResult "Step 4 Complete: SMS Notification Sent") fun _ =>
        ([], Except.ok
          { delayDetected := true
            delayMinutes := trafficData.estimatedDelayMinutes
            notificationSent := true
            message := some ("Delay notification sent via SMS after email failed. Customer notified of " ++
              toString trafficData.estimatedDelayMinutes ++ " minute delay.") })
    else
      stepBind (.log "Step 4 Failed: Both Email and SMS Failed")
          (sr.logResult "Step 4 Failed: Both Email and SMS Failed") fun _ =>
        ([], Except.ok
          { delayDetected := true
            delayMinutes := trafficData.estimatedDelayMinutes
            notificationSent := false
            error := some ("Failed to send notification: Email failed (" ++
              interpolateOpt notificationResponse.error ++ "), SMS failed (" ++
              interpolateOpt smsResponse.error ++ ")") })

/-- freightDelayNotificationWorkflow (src/workflows/freightDelayWorkflow.ts
lines 50-168).  The initial Workflow Started log runs before the try
block, so its failure propagates uncaught; a failure inside the try is
caught, logged (the catch handler's own log may itself fail and
propagate) and surfaced as an error-carrying WorkflowResult.  env is the
ambient nondeterminism the body never reads. -/
def freightDelayNotificationWorkflow (input : DelayNotificationInput)
    (sr : StepResults) (env : Env) : Trace × Except String WorkflowResult :=
  stepBind (.log "Workflow Started") (sr.logResult "Workflow Started") fun _ =>
    match (workflowBody input sr).2 with
    | Except.ok _ => workflowBody input sr
    | Except.error e =>
      match sr.logResult "Workflow Error" with
      | Except.error e2 =>
        ((workflowBody input sr).1 ++ [StepCall.log "Workflow Error"], Except.error e2)
      | Except.ok _ =>
        ((workflowBody input sr).1 ++ [StepCall.log "Workflow Error"],
         Except.ok
           { delayDetected := false
             delayMinutes := 0
             notificationSent := false
             error := some e })

section Fixtures

/-- Sample route used by the spec's end-to-end examples. -/
def sampleRoute : DeliveryRoute :=
  { origin := "New York, NY", destination := "Philadelphia, PA" }

/-- Sample workflow input with the default threshold of 30 minutes. -/
def sampleInput : DelayNotificationInput :=
  { route := sampleRoute
    customerEmail := "customer@example.com"
    delayThresholdMinutes := 30 }

/-- Sample traffic snapshot with a 45 minute delay. -/
def sampleTraffic : TrafficData :=
  { estimatedDelayMinutes := 45
    normalDurationMinutes := 120
    currentDurationMinutes := 165
    trafficCondition := .severe
    route := sampleRoute }

/-- Log outcomes where every log step succeeds. -/
def okLogs : String → Except String Unit := fun _ => Except.ok ()

/-- Baseline recorded step outcomes: every step succeeded. -/
def baseResults : StepResults :=
  { logResult := okLogs
    fetchResult := Except.ok sampleTraffic
    shouldNotifyResult := Except.ok true
    createAIReqResult := Except.ok (createAIMessageRequest sampleTraffic)
    genAIResult := Except.ok { message := "Your delivery is delayed.", success := true }
    createNotifReqResult :=
      Except.ok (createNotificationRequest "customer@example.com" "Your delivery is delayed." 45)
    sendPrimaryResult := Except.ok { success := true, messageId := some "msg_1_a" }
    sendSMSResult := Except.ok { success := true, messageId := some "sms_1_a" } }

/-- Sample ambient environment. -/
def envSample : Env := { now := 0, random := 0, envVar := fun _ => none }

end Fixtures

/-- C6: traffic-condition classification is a pure total function of the
delay with fixed bands light below 15, moderate 15-29, heavy 30-44,
severe from 45 up, and the boundary values 14, 15, 29, 30, 44, 45 map to
light, moderate, moderate, heavy, heavy, severe respectively. -/
theorem condition_bands (d : Int) (h : 0 ≤ d) :
    (d < 15 → trafficConditionOf d = .light) ∧
    (15 ≤ d → d ≤ 29 → trafficConditionOf d = .moderate) ∧
    (30 ≤ d → d ≤ 44 → trafficConditionOf d = .heavy) ∧
    (45 ≤ d → trafficConditionOf d = .severe) ∧
    trafficConditionOf 14 = .light ∧ trafficConditionOf 15 = .moderate ∧
    trafficConditionOf 29 = .moderate ∧ trafficConditionOf 30 = .heavy ∧
    trafficConditionOf 44 = .heavy ∧ trafficConditionOf 45 = .severe := by
  refine ⟨?_, ?_, ?_, ?_, by decide, by decide, by decide, by decide, by decide, by decide⟩
  · intro h1
    simp [trafficConditionOf, h1]
  · intro h1 h2
    rw [trafficConditionOf, if_neg (by omega), if_pos (by omega)]
  · intro h1 h2
    rw [trafficConditionOf, if_neg (by omega), if_neg (by omega), if_pos (by omega)]
  · intro h1
    rw [trafficConditionOf, if_neg (by omega), if_neg (by omega), if_neg (by omega)]

/-- C6 witness: the boundary value 15 is classified as moderate. -/
theorem condition_bands_witness : trafficConditionOf 15 = .moderate :=
  (condition_bands 15 (by decide)).2.1 (by decide) (by decide)

/-- C7: the backoff delay after the n-th failed attempt is
min(initialInterval * backoffCoefficient^(n-1), maximumInterval) for
every policy; under the configured policy (1s initial, coefficient 2,
10s cap, 3 attempts) the delays before the 2nd and 3rd attempts are
1000ms and 2000ms, and a failure on attempt 3 exhausts the retries while
one on attempt 2 does not. -/
theorem retry_backoff :
    (∀ (p : RetryPolicy) (n : Nat),
      computeRetryDelay p n =
        min (p.initialInterval * p.backoffCoefficient ^ (n - 1)) p.maximumInterval) ∧
    computeRetryDelay configuredRetryPolicy 1 = 1000 ∧
    computeRetryDelay configuredRetryPolicy 2 = 2000 ∧
    computeRetryDelay configuredRetryPolicy 5 = 10000 ∧
    retriesExhausted configuredRetryPolicy 3 = true ∧
    retriesExhausted configuredRetryPolicy 2 = false :=
  ⟨fun _ _ => rfl, by decide, by decide, by decide, by decide, by decide⟩

/-- C9: every snapshot produced by the traffic fetch has a nonnegative
delay, positive normal and current durations, current duration at least
the normal duration (in particular whenever the delay is positive), and
a condition field equal to the fixed-band classification of its delay. -/
theorem snapshot_invariants (route : DeliveryRoute) (rand : Nat) :
    0 ≤ (getMockTrafficData route rand).estimatedDelayMinutes ∧
    0 < (getMockTrafficData route rand).normalDurationMinutes ∧
    0 < (getMockTrafficData route rand).currentDurationMinutes ∧
    (0 < (getMockTrafficData route rand).estimatedDelayMinutes →
      (getMockTrafficData route rand).normalDurationMinutes ≤
        (getMockTrafficData route rand).currentDurationMinutes) ∧
    (getMockTrafficData route rand).trafficCondition =
      trafficConditionOf (getMockTrafficData route rand).estimatedDelayMinutes := by
  refine ⟨?_, ?_, ?_, ?_, rfl⟩ <;> simp [getMockTrafficData] <;> omega

/-- C9 witness: at the concrete draw 20 the delay is positive and the
current duration dominates the normal duration. -/
theorem snapshot_invariants_witness :
    (getMockTrafficData sampleRoute 20).normalDurationMinutes ≤
      (getMockTrafficData sampleRoute 20).currentDurationMinutes :=
  (snapshot_invariants sampleRoute 20).2.2.2.1 (by decide)

/-- A string is nonempty exactly when its length is positive. -/
lemma ne_empty_iff_length_pos (s : String) : s ≠ "" ↔ 0 < s.length := by
  cases s with
  | mk data =>
    simp only [ne_eq, String.ext_iff, String.length]
    exact (Iff.symm List.length_pos)

/-- C8: for every route whose origin and destination are nonempty after
trimming, the traffic-fetch activity returns a snapshot (it never has to
signal that no data can be produced, since mock data is always
available); for an invalid route, one whose origin or destination is
empty or whitespace-only, it raises the terminal input error instead of
returning data. -/
theorem fetch_traffic_validation (route : DeliveryRoute) (rand : Nat) :
    (strTrim route.origin ≠ "" → strTrim route.destination ≠ "" →
      fetchTrafficData route rand = Except.ok (getMockTrafficData route rand)) ∧
    ((strTrim route.origin = "" ∨ strTrim route.destination = "") →
      fetchTrafficData route rand =
        Except.error "Invalid route: Origin and destination are required") := by
  constructor
  · intro h1 h2
    have ho : route.origin ≠ "" := by
      intro he
      exact h1 (by rw [he]; rfl)
    have hd : route.destination ≠ "" := by
      intro he
      exact h2 (by rw [he]; rfl)
    have l1 : 0 < (strTrim route.origin).length := (ne_empty_iff_length_pos _).mp h1
    have l2 : 0 < (strTrim route.destination).length := (ne_empty_iff_length_pos _).mp h2
    simp [fetchTrafficData, getTrafficData, validateRoute, ho, hd, l1, l2]
  · intro h
    have hv : validateRoute route = false := by
      rcases h with h | h <;> simp [validateRoute, h]
    simp [fetchTrafficData, hv]

/-- C8 witness: the sample route is valid and yields a snapshot. -/
theorem fetch_traffic_validation_witness :
    fetchTrafficData sampleRoute 5 = Except.ok (getMockTrafficData sampleRoute 5) :=
  (fetch_traffic_validation sampleRoute 5).1 (by decide) (by decide)

/-- The invoked step is always recorded in the trace, whatever its
outcome. -/
lemma self_mem_stepBind {α β : Type} (c : StepCall) (r : Except String α)
    (k : α → Trace × Except String β) : c ∈ (stepBind c r k).1 := by
  cases r <;> simp

/-- If the body returns a result, the whole workflow surfaces exactly that
result once the pre-try log step succeeded. -/
lemma wf_result_of_body_ok (input : DelayNotificationInput) (sr : StepResults)
    (env : Env) (res : WorkflowResult)
    (h0 : sr.logResult "Workflow Started" = Except.ok ())
    (hb : (workflowBody input sr).2 = Except.ok res) :
    (freightDelayNotificationWorkflow input sr env).2 = Except.ok res := by
  unfold freightDelayNotificationWorkflow
  rw [h0, stepBind_ok]
  simp only [hb]

/-- Every activity invocation of the body appears in the workflow trace
once the pre-try log step succeeded. -/
lemma mem_wf_of_mem_body (input : DelayNotificationInput) (sr : StepResults)
    (env : Env) (x : StepCall)
    (h0 : sr.logResult "Workflow Started" = Except.ok ())
    (hx : x ∈ (workflowBody input sr).1) :
    x ∈ (freightDelayNotificationWorkflow input sr env).1 := by
  unfold freightDelayNotificationWorkflow
  rw [h0, stepBind_ok]
  cases hbody : (workflowBody input sr).2 with
  | error e =>
    cases herr : sr.logResult "Workflow Error" with
    | error e2 => simp [hbody, herr, hx]
    | ok u => simp [hbody, herr, hx]
  | ok r => simp [hbody, hx]

/-- C1: with the fetch step returning the snapshot and the threshold-check
step recording the strict greater-than comparison, a delay strictly above
the threshold sends the workflow into the notification branch (the
compose-phase activities are invoked), while a delay at or below the
threshold terminates with delayDetected false, delayMinutes equal to the
snapshot delay and notificationSent false; equality with the threshold
does not notify. -/
theorem threshold_branching (input : DelayNotificationInput) (snapshot : TrafficData)
    (sr : StepResults) (env : Env)
    (hlog : ∀ s, sr.logResult s = Except.ok ())
    (hfetch : sr.fetchResult = Except.ok snapshot)
    (hdec : sr.shouldNotifyResult =
      Except.ok (shouldSendNotification snapshot.estimatedDelayMinutes
        input.delayThresholdMinutes)) :
    (input.delayThresholdMinutes < snapshot.estimatedDelayMinutes →
      StepCall.log "Step 3: Generating AI Message" ∈
          (freightDelayNotificationWorkflow input sr env).1 ∧
        StepCall.createAIReq snapshot ∈ (freightDelayNotificationWorkflow input sr env).1) ∧
    (snapshot.estimatedDelayMinutes ≤ input.delayThresholdMinutes →
      ∃ res, (freightDelayNotificationWorkflow input sr env).2 = Except.ok res ∧
        res.delayDetected = false ∧ res.delayMinutes = snapshot.estimatedDelayMinutes ∧
        res.notificationSent = false) := by
  constructor
  · intro h
    have hb : shouldSendNotification snapshot.estimatedDelayMinutes
        input.delayThresholdMinutes = true := by
      simp [shouldSendNotification, h]
    constructor
    · refine mem_wf_of_mem_body input sr env _ (hlog _) ?_
      unfold workflowBody
      simp [hlog, hfetch, hdec, hb]
    · refine mem_wf_of_mem_body input sr env _ (hlog _) ?_
      unfold workflowBody
      simp [hlog, hfetch, hdec, hb]
  · intro h
    have hb : shouldSendNotification snapshot.estimatedDelayMinutes
        input.delayThresholdMinutes = false := by
      simp [shouldSendNotification]
      omega
    have hbody : (workflowBody input sr).2 = Except.ok
        { delayDetected := false
          delayMinutes := snapshot.estimatedDelayMinutes
          notificationSent := false
          message := some ("No notification required. Delay of " ++
            toString snapshot.estimatedDelayMinutes ++
            " minutes is below threshold of " ++
            toString input.delayThresholdMinutes ++ " minutes.") } := by
      unfold workflowBody
      simp [hlog, hfetch, hdec, hb]
    exact ⟨_, wf_result_of_body_ok input sr env _ (hlog _) hbody, rfl, rfl, rfl⟩

/-- C1 witness: with the sample 45 minute delay against the 30 minute
threshold the compose phase is entered. -/
theorem threshold_branching_witness :
    StepCall.createAIReq sampleTraffic ∈
      (freightDelayNotificationWorkflow sampleInput baseResults envSample).1 :=
  ((threshold_branching sampleInput sampleTraffic baseResults envSample
      (fun _ => rfl) rfl rfl).1 (by decide)).2

/-- C2: replay determinism.  The workflow is a function of its input and
of the recorded step results alone: two executions that replay the same
step results produce the identical trace and terminal result, whatever
the ambient wall clock, random draws, or environment variables are,
because the body performs no inline read of them. -/
theorem replay_determinism (input : DelayNotificationInput) (sr : StepResults)
    (e1 e2 : Env) :
    freightDelayNotificationWorkflow input sr e1 =
      freightDelayNotificationWorkflow input sr e2 := rfl

/-- C3: when the primary send step reports a business-level failure and
the SMS step reports success, the SMS step is invoked with the identical
composed NotificationRequest that the primary send received, and the
terminal result has delayDetected true, notificationSent true and the
message saying the notification went via SMS after email failed. -/
theorem fallback_uses_same_message (input : DelayNotificationInput) (td : TrafficData)
    (aireq : AIMessageRequest) (airesp : AIMessageResponse) (nreq : NotificationRequest)
    (presp sresp : NotificationResponse) (sr : StepResults) (env : Env)
    (hlog : ∀ s, sr.logResult s = Except.ok ())
    (hfetch : sr.fetchResult = Except.ok td)
    (hdec : sr.shouldNotifyResult = Except.ok true)
    (hreq : sr.createAIReqResult = Except.ok aireq)
    (hai : sr.genAIResult = Except.ok airesp)
    (hnr : sr.createNotifReqResult = Except.ok nreq)
    (hp : sr.sendPrimaryResult = Except.ok presp)
    (hpf : presp.success = false)
    (hs : sr.sendSMSResult = Except.ok sresp)
    (hss : sresp.success = true) :
    StepCall.sendPrimary nreq ∈ (freightDelayNotificationWorkflow input sr env).1 ∧
    StepCall.sendSMS nreq ∈ (freightDelayNotificationWorkflow input sr env).1 ∧
    (freightDelayNotificationWorkflow input sr env).2 = Except.ok
      { delayDetected := true
        delayMinutes := td.estimatedDelayMinutes
        notificationSent := true
        message := some ("Delay notification sent via SMS after email failed. Customer notified of " ++
          toString td.estimatedDelayMinutes ++ " minute delay.") } := by
  refine ⟨mem_wf_of_mem_body input sr env _ (hlog _) ?_,
    mem_wf_of_mem_body input sr env _ (hlog _) ?_,
    wf_result_of_body_ok input sr env _ (hlog _) ?_⟩ <;>
  · unfold workflowBody
    simp [hlog, hfetch, hdec, hreq, hai, hnr, hp, hpf, hs, hss]

/-- Recorded step outcomes of an execution where the email send failed
with a business-level error and the SMS send succeeded. -/
def srFallback : StepResults :=
  { baseResults with
      sendPrimaryResult := Except.ok { success := false, error := some "mailbox full" } }

/-- C3 witness: in the concrete fallback execution the SMS step receives
the very request composed for the email step. -/
theorem fallback_uses_same_message_witness :
    StepCall.sendSMS (createNotificationRequest "customer@example.com"
        "Your delivery is delayed." 45) ∈
      (freightDelayNotificationWorkflow sampleInput srFallback envSample).1 :=
  (fallback_uses_same_message sampleInput sampleTraffic
    (createAIMessageRequest sampleTraffic)
    { message := "Your delivery is delayed.", success := true }
    (createNotificationRequest "customer@example.com" "Your delivery is delayed." 45)
    { success := false, error := some "mailbox full" }
    { success := true, messageId := some "sms_1_a" }
    srFallback envSample
    (fun _ => rfl) rfl rfl rfl rfl rfl rfl rfl rfl rfl).2.1

/-- C4: when both send steps report business-level failures, the terminal
result has delayDetected true, notificationSent false and an error string
that embeds both channels' failure reasons. -/
theorem double_failure_combined_error (input : DelayNotificationInput) (td : TrafficData)
    (aireq : AIMessageRequest) (airesp : AIMessageResponse) (nreq : NotificationRequest)
    (presp sresp : NotificationResponse) (sr : StepResults) (env : Env)
    (hlog : ∀ s, sr.logResult s = Except.ok ())
    (hfetch : sr.fetchResult = Except.ok td)
    (hdec : sr.shouldNotifyResult = Except.ok true)
    (hreq : sr.createAIReqResult = Except.ok aireq)
    (hai : sr.genAIResult = Except.ok airesp)
    (hnr : sr.createNotifReqResult = Except.ok nreq)
    (hp : sr.sendPrimaryResult = Except.ok presp)
    (hpf : presp.success = false)
    (hs : sr.sendSMSResult = Except.ok sresp)
    (hss : sresp.success = false) :
    (freightDelayNotificationWorkflow input sr env).2 = Except.ok
      { delayDetected := true
        delayMinutes := td.estimatedDelayMinutes
        notificationSent := false
        error := some ("Failed to send notification: Email failed (" ++
          interpolateOpt presp.error ++ "), SMS failed (" ++
          interpolateOpt sresp.error ++ ")") } ∧
    (∀ e1, presp.error = some e1 → ∃ pre post : String,
      "Failed to send notification: Email failed (" ++ interpolateOpt presp.error ++
        "), SMS failed (" ++ interpolateOpt sresp.error ++ ")" = pre ++ (e1 ++ post)) ∧
    (∀ e2, sresp.error = some e2 → ∃ pre post : String,
      "Failed to send notification: Email failed (" ++ interpolateOpt presp.error ++
        "), SMS failed (" ++ interpolateOpt sresp.error ++ ")" = pre ++ (e2 ++ post)) := by
  refine ⟨wf_result_of_body_ok input sr env _ (hlog _) ?_, ?_, ?_⟩
  · unfold workflowBody
    simp [hlog, hfetch, hdec, hreq, hai, hnr, hp, hpf, hs, hss]
  · intro e1 he1
    refine ⟨"Failed to send notification: Email failed (",
      "), SMS failed (" ++ interpolateOpt sresp.error ++ ")", ?_⟩
    simp [he1, interpolateOpt, String.append_assoc]
  · intro e2 he2
    refine ⟨"Failed to send notification: Email failed (" ++ interpolateOpt presp.error ++
      "), SMS failed (", ")", ?_⟩
    simp [he2, interpolateOpt, String.append_assoc]

/-- Log outcomes where the very first log step, the pre-try Workflow
Started entry, fails terminally and every other log succeeds. -/
def failingStartLogs : String → Except String Unit :=
  fun s => if s = "Workflow Started" then Except.error "log outage" else Except.ok ()

/-- Recorded step outcomes of an execution whose initial logging step
fails terminally. -/
def preTryFailResults : StepResults :=
  { baseResults with logResult := failingStartLogs }

/-- C5 counterexample: a terminal failure of the initial Workflow Started
logging step, which the source awaits before entering the try block,
propagates to the caller as a bare fault; no WorkflowResult, error-shaped
or otherwise, is returned. -/
theorem pre_try_log_failure_counterexample :
    (freightDelayNotificationWorkflow sampleInput preTryFailResults envSample).2 =
      Except.error "log outage" ∧
    ∀ res : WorkflowResult,
      (freightDelayNotificationWorkflow sampleInput preTryFailResults envSample).2 ≠
        Except.ok res := by
  have h : (freightDelayNotificationWorkflow sampleInput preTryFailResults envSample).2 =
      Except.error "log outage" := rfl
  exact ⟨h, fun res hres => Except.noConfusion (h.symm.trans hres)⟩

/-- C5 amended: any terminal step failure raised inside the try block is
caught and surfaced as the result with delayDetected false, delayMinutes
0, notificationSent false and the failure message in the error field,
provided the pre-try Workflow Started log step and the catch handler's
own Workflow Error log step succeed; a terminal failure of either of
those two logging steps instead propagates to the caller as a fault. -/
theorem errors_inside_try_surfaced (input : DelayNotificationInput) (sr : StepResults)
    (env : Env) (e : String)
    (h0 : sr.logResult "Workflow Started" = Except.ok ())
    (h1 : sr.logResult "Workflow Error" = Except.ok ())
    (hb : (workflowBody input sr).2 = Except.error e) :
    (freightDelayNotificationWorkflow input sr env).2 = Except.ok
      { delayDetected := false
        delayMinutes := 0
        notificationSent := false
        error := some e } := by
  unfold freightDelayNotificationWorkflow
  rw [h0, stepBind_ok]
  simp [hb, h1]

/-- Recorded step outcomes of an execution whose traffic-fetch step fails
terminally. -/
def srFetchFail : StepResults :=
  { baseResults with fetchResult := Except.error "Traffic backend down" }

/-- C5 witness: a terminal fetch failure inside the try block is surfaced
as the error-shaped WorkflowResult. -/
theorem errors_inside_try_surfaced_witness :
    (freightDelayNotificationWorkflow sampleInput srFetchFail envSample).2 = Except.ok
      { delayDetected := false
        delayMinutes := 0
        notificationSent := false
        error := some "Traffic backend down" } :=
  errors_inside_try_surfaced sampleInput srFetchFail envSample "Traffic backend down"
    rfl rfl rfl

/-- Recorded step outcomes of an execution where both channels failed
with business-level errors. -/
def srDouble : StepResults :=
  { baseResults with
      sendPrimaryResult := Except.ok { success := false, error := some "mailbox full" }
      sendSMSResult := Except.ok { success := false, error := some "no signal" } }

/-- C4 witness: the concrete double-failure execution terminates with
notificationSent false and the combined error string. -/
theorem double_failure_combined_error_witness :
    (freightDelayNotificationWorkflow sampleInput srDouble envSample).2 = Except.ok
      { delayDetected := true
        delayMinutes := 45
        notificationSent := false
        error := some ("Failed to send notification: Email failed (" ++
          interpolateOpt (some "mailbox full") ++ "), SMS failed (" ++
          interpolateOpt (some "no signal") ++ ")") } :=
  (double_failure_combined_error sampleInput sampleTraffic
    (createAIMessageRequest sampleTraffic)
    { message := "Your delivery is delayed.", success := true }
    (createNotificationRequest "customer@example.com" "Your delivery is delayed." 45)
    { success := false, error := some "mailbox full" }
    { success := false, error := some "no signal" }
    srDouble envSample
    (fun _ => rfl) rfl rfl rfl rfl rfl rfl rfl rfl rfl).1

/-- With a primary-send step that can only record successful responses,
the body never invokes the SMS step and never returns a delay-detected
result with notificationSent false. -/
lemma body_no_sms (input : DelayNotificationInput) (sr : StepResults)
    (hp : ∀ resp, sr.sendPrimaryResult = Except.ok resp → resp.success = true) :
    (∀ r, StepCall.sendSMS r ∉ (workflowBody input sr).1) ∧
    (∀ res, (workflowBody input sr).2 = Except.ok res →
      res.delayDetected = true → res.notificationSent = true) := by
  unfold workflowBody
  cases h1 : sr.logResult "Step 1: Fetching Traffic Data" with
  | error e => simp [h1]
  | ok u1 =>
  cases h2 : sr.fetchResult with
  | error e => simp [h1, h2]
  | ok td =>
  cases h3 : sr.logResult "Step 1 Complete: Traffic Data Retrieved" with
  | error e => simp [h1, h2, h3]
  | ok u3 =>
  cases h4 : sr.logResult "Step 2: Checking Delay Threshold" with
  | error e => simp [h1, h2, h3, h4]
  | ok u4 =>
  cases h5 : sr.shouldNotifyResult with
  | error e => simp [h1, h2, h3, h4, h5]
  | ok b =>
  cases b with
  | false =>
    cases h6 : sr.logResult "Step 2 Complete: No Notification Required" with
    | error e => simp [h1, h2, h3, h4, h5, h6]
    | ok u6 => simp [h1, h2, h3, h4, h5, h6]
  | true =>
  cases h7 : sr.logResult "Step 3: Generating AI Message" with
  | error e => simp [h1, h2, h3, h4, h5, h7]
  | ok u7 =>
  cases h8 : sr.createAIReqResult with
  | error e => simp [h1, h2, h3, h4, h5, h7, h8]
  | ok aireq =>
  cases h9 : sr.genAIResult with
  | error e => simp [h1, h2, h3, h4, h5, h7, h8, h9]
  | ok airesp =>
  cases h10 : sr.logResult (if airesp.success then "Step 3 Complete: AI Message Generated"
      else "Step 3 Warning: AI Message Generation Failed") with
  | error e => simp [h1, h2, h3, h4, h5, h7, h8, h9, h10]
  | ok u10 =>
  cases h11 : sr.logResult "Step 4: Sending Notification" with
  | error e => simp [h1, h2, h3, h4, h5, h7, h8, h9, h10, h11]
  | ok u11 =>
  cases h12 : sr.createNotifReqResult with
  | error e => simp [h1, h2, h3, h4, h5, h7, h8, h9, h10, h11, h12]
  | ok nreq =>
  cases h13 : sr.sendPrimaryResult with
  | error e => simp [h1, h2, h3, h4, h5, h7, h8, h9, h10, h11, h12, h13]
  | ok presp =>
  have hps : presp.success = true := hp presp h13
  cases h14 : sr.logResult "Step 4 Complete: Notification Sent Successfully" with
  | error e => simp [h1, h2, h3, h4, h5, h7, h8, h9, h10, h11, h12, h13, hps, h14]
  | ok u14 => simp [h1, h2, h3, h4, h5, h7, h8, h9, h10, h11, h12, h13, hps, h14]

/-- Inversion on a successful workflow run: the surfaced result is either
the body's own result or the catch handler's error-shaped result. -/
lemma wf_result_cases (input : DelayNotificationInput) (sr : StepResults)
    (env : Env) (res : WorkflowResult)
    (h : (freightDelayNotificationWorkflow input sr env).2 = Except.ok res) :
    (workflowBody input sr).2 = Except.ok res ∨
    ∃ e, (workflowBody input sr).2 = Except.error e ∧
      res = { delayDetected := false, delayMinutes := 0, notificationSent := false,
              error := some e } := by
  unfold freightDelayNotificationWorkflow at h
  cases h0 : sr.logResult "Workflow Started" with
  | error e => rw [h0] at h; simp at h
  | ok u =>
    rw [h0, stepBind_ok] at h
    cases hbody : (workflowBody input sr).2 with
    | ok r2 =>
      simp only [hbody] at h
      exact Or.inl h
    | error e =>
      cases herr : sr.logResult "Workflow Error" with
      | error e2 => simp [hbody, herr] at h
      | ok u2 =>
        simp only [hbody, herr] at h
        exact Or.inr ⟨e, rfl, by simpa using h.symm⟩

/-- Inversion on the workflow trace: every recorded invocation is the
pre-try log, the catch handler's log, or an invocation of the body. -/
lemma mem_wf_cases (input : DelayNotificationInput) (sr : StepResults)
    (env : Env) (x : StepCall)
    (h : x ∈ (freightDelayNotificationWorkflow input sr env).1) :
    x = StepCall.log "Workflow Started" ∨ x = StepCall.log "Workflow Error" ∨
      x ∈ (workflowBody input sr).1 := by
  unfold freightDelayNotificationWorkflow at h
  cases h0 : sr.logResult "Workflow Started" with
  | error e =>
    rw [h0] at h
    simp at h
    exact Or.inl h
  | ok u =>
    rw [h0, stepBind_ok] at h
    rcases List.mem_cons.mp h with h | h
    · exact Or.inl h
    · cases hbody : (workflowBody input sr).2 with
      | ok r2 =>
        simp only [hbody] at h
        exact Or.inr (Or.inr h)
      | error e =>
        cases herr : sr.logResult "Workflow Error" with
        | error e2 =>
          simp only [hbody, herr, List.mem_append, List.mem_singleton] at h
          rcases h with h | h
          · exact Or.inr (Or.inr h)
          · exact Or.inr (Or.inl h)
        | ok u2 =>
          simp only [hbody, herr, List.mem_append, List.mem_singleton] at h
          rcases h with h | h
          · exact Or.inr (Or.inr h)
          · exact Or.inr (Or.inl h)

/-- C10: the simulated notification service always reports success with a
defined message id, on the email channel and on the SMS channel alike;
consequently, in any execution whose primary-send step records responses
of this service, the SMS fallback step is never invoked and no
delay-detected result with notificationSent false is ever returned. -/
theorem service_send_always_succeeds (req : NotificationRequest) (now : Nat)
    (tag : String) (input : DelayNotificationInput) (sr : StepResults) (env : Env)
    (himg : ∀ resp, sr.sendPrimaryResult = Except.ok resp →
      ∃ r n t, resp = NotificationService.sendDelayNotification r n t) :
    (NotificationService.sendDelayNotification req now tag).success = true ∧
    (NotificationService.sendDelayNotification req now tag).messageId.isSome = true ∧
    (NotificationService.sendSMSNotification req now tag).success = true ∧
    (NotificationService.sendSMSNotification req now tag).messageId.isSome = true ∧
    (∀ r, StepCall.sendSMS r ∉ (freightDelayNotificationWorkflow input sr env).1) ∧
    (∀ res, (freightDelayNotificationWorkflow input sr env).2 = Except.ok res →
      res.delayDetected = true → res.notificationSent = true) := by
  have hp : ∀ resp, sr.sendPrimaryResult = Except.ok resp → resp.success = true := by
    intro resp h
    rcases himg resp h with ⟨r, n, t, rfl⟩
    rfl
  have hb := body_no_sms input sr hp
  refine ⟨rfl, rfl, rfl, rfl, ?_, ?_⟩
  · intro r hmem
    rcases mem_wf_cases input sr env _ hmem with h | h | h
    · exact StepCall.noConfusion h
    · exact StepCall.noConfusion h
    · exact hb.1 r h
  · intro res hres
    rcases wf_result_cases input sr env res hres with h | ⟨e, _, hshape⟩
    · exact hb.2 res h
    · intro hdet
      rw [hshape] at hdet
      exact absurd hdet (by simp)

/-- Response the simulated email service records for the sample request. -/
def primaryServiceResponse : NotificationResponse :=
  NotificationService.sendDelayNotification
    (createNotificationRequest "customer@example.com" "Your delivery is delayed." 45) 1 "a"

/-- Recorded step outcomes whose primary-send entry is a response of the
simulated notification service. -/
def srServicePrimary : StepResults :=
  { baseResults with sendPrimaryResult := Except.ok primaryServiceResponse }

/-- C10 witness: in the concrete execution whose primary-send record is a
response of the simulated service, no SMS step invocation occurs. -/
theorem service_send_always_succeeds_witness :
    StepCall.sendSMS (createNotificationRequest "customer@example.com"
        "Your delivery is delayed." 45) ∉
      (freightDelayNotificationWorkflow sampleInput srServicePrimary envSample).1 :=
  (service_send_always_succeeds
    (createNotificationRequest "customer@example.com" "Your delivery is delayed." 45)
    1 "a" sampleInput srServicePrimary envSample
    (fun resp h => by
      refine ⟨createNotificationRequest "customer@example.com" "Your delivery is delayed." 45,
        1, "a", ?_⟩
      have h2 : Except.ok primaryServiceResponse = Except.ok resp := h
      injection h2 with h3
      rw [← h3]
      rfl)).2.2.2.2.1 _

end Freight
